import Mathlib

/-!
Verification of the closed-loop assurance engine of the IBN-Simulator
repository: the SLA evaluator, the translator retry helper, the per-intent
step of the assurance telemetry loop, the intent store operations, and the
intent-creation pipeline, embedded shallowly from `src/app/assurance.py`,
`src/app/store.py` and `src/app/main.py`.

Numeric telemetry and SLA values are modelled as rationals.  A missing SLA
field is an `Option` set to `none`: `sla.get("latency_ms", float("inf"))`
becomes a comparison that is false when the field is absent (no rational
exceeds the infinite default), and the zero defaults of the two floor
fields become `Option.getD _ 0`.  Python exceptions raised by the external
collaborators (translator, store attach, executor) are modelled as
`Except String _` outcomes supplied by an environment record; the loop's
`try/except` blocks become the corresponding case splits.
-/

namespace IBN

/-- A telemetry sample, as produced by `_simulate_metrics_for_intent`:
the dict `{"latency": _, "availability": _, "bandwidth": _}`. -/
structure Metrics where
  latency : ℚ
  availability : ℚ
  bandwidth : ℚ
deriving DecidableEq

/-- The SLA threshold dict.  Each field may be absent (`none`), matching a
dict missing that key in `assurance.py`'s `sla.get(...)` lookups. -/
structure SLA where
  latency_ms : Option ℚ
  availability_pct : Option ℚ
  min_bandwidth_mbps : Option ℚ
deriving DecidableEq

/-- Embeds `_should_remediate(sla, metrics)` from `src/app/assurance.py` lines 42-47:
latency above the ceiling (default `float("inf")`, so never exceeded when
absent), or availability below the floor (default `0.0`), or bandwidth
below the floor (default `0`). -/
def should_remediate (sla : SLA) (metrics : Metrics) : Bool :=
  (match sla.latency_ms with
    | some c => decide (c < metrics.latency)
    | none => false)
  || decide (metrics.availability < sla.availability_pct.getD 0)
  || decide (metrics.bandwidth < sla.min_bandwidth_mbps.getD 0)

/-- Embeds `QosPolicy` from `src/app/schemas.py`. -/
structure QosPolicy where
  class_name : String
  min_bandwidth_mbps : ℤ
deriving DecidableEq

/-- Embeds `RoutingHint` from `src/app/schemas.py`. -/
structure RoutingHint where
  preferred_path : String
  avoid : Option String
deriving DecidableEq

/-- Embeds `Policy` from `src/app/schemas.py`; the `acl` dict is modelled as an
association list of string pairs (its contents are opaque to the core). -/
structure Policy where
  intent_id : String
  qos : QosPolicy
  routing : RoutingHint
  acl : List (String × String)
deriving DecidableEq

/-- One row of the `intents` table as parsed by `get_intent` in
`src/app/store.py`: selectors as an opaque association list, `status` the
loosely-typed status string, `policy` nullable, `audit_log` a JSON list of
strings. -/
structure IntentRecord where
  intent_id : String
  name : String
  owner : String
  selectors : List (String × String)
  sla : SLA
  description : String
  status : String
  policy : Option Policy
  audit_log : List String
deriving DecidableEq

/-- The `intents` table: a list of rows, keyed by `intent_id`. -/
abbrev Store := List IntentRecord

/-- Embeds `get_intent` from `src/app/store.py`: `SELECT * FROM intents WHERE
intent_id=?`, `None` when no row matches. -/
def get_intent (store : Store) (id : String) : Option IntentRecord :=
  store.find? (fun r => decide (r.intent_id = id))

/-- Embeds `save_intent` from `src/app/store.py`: `INSERT` of a fresh row. -/
def save_intent (store : Store) (r : IntentRecord) : Store :=
  store ++ [r]

/-- Embeds `update_status` from `src/app/store.py`: `UPDATE intents SET status=?
WHERE intent_id=?`. -/
def update_status (store : Store) (id status : String) : Store :=
  store.map (fun r => if r.intent_id = id then { r with status := status } else r)

/-- Embeds `attach_policy` from `src/app/store.py`: `UPDATE intents SET policy=?
WHERE intent_id=?`. -/
def attach_policy (store : Store) (id : String) (p : Policy) : Store :=
  store.map (fun r => if r.intent_id = id then { r with policy := some p } else r)

/-- Embeds `append_audit` from `src/app/store.py`: read the row's audit list,
append one message, write it back; a no-op when the row is absent. -/
def append_audit (store : Store) (id : String) (msg : String) : Store :=
  store.map (fun r => if r.intent_id = id then { r with audit_log := r.audit_log ++ [msg] } else r)

/-- The process-wide `telemetry_state` dict of `src/app/assurance.py`,
modelled as the mapping it denotes. -/
abbrev Telemetry := String → Option Metrics

/-- Embeds `telemetry_state[intent_id] = metrics`: dict assignment. -/
def telemetry_set (t : Telemetry) (id : String) (m : Metrics) : Telemetry :=
  fun k => if k = id then some m else t k

/-- The `GET /telemetry/{intent_id}` endpoint of `src/app/main.py`:
`telemetry_state.get(intent_id, {})`, with the empty-dict default
rendered as `none`. -/
def get_telemetry (t : Telemetry) (id : String) : Option Metrics :=
  t id

/-- Constant `LLM_RETRY_ATTEMPTS = 2` from `src/app/assurance.py`. -/
def LLM_RETRY_ATTEMPTS : ℕ := 2

/-- Constant `LLM_RETRY_BACKOFF = 1.5` from `src/app/assurance.py`. -/
def LLM_RETRY_BACKOFF : ℚ := 1.5

/-- The retry loop of `_call_llm_with_retries` (`src/app/assurance.py`
lines 49-62).  `oracle a` is the outcome of the `(a+1)`-th invocation of
`llm_translate_intent` (`Except.error` models a raised exception); `left`
is the number of invocations still permitted by `attempt <= 2`, and
`backoff` the current sleep duration.  Returns the final outcome, the
list of `time.sleep` durations performed, and the number of translator
invocations made. -/
def call_llm_go (oracle : ℕ → Except String Policy) :
    ℕ → ℕ → ℚ → Except String Policy × List ℚ × ℕ
  | a, 0, _ => (oracle a, [], 1)
  | a, 1, _ => (oracle a, [], 1)
  | a, left + 2, backoff =>
    match oracle a with
    | Except.ok p => (Except.ok p, [], 1)
    | Except.error _ =>
      let rest := call_llm_go oracle (a + 1) (left + 1) (backoff * LLM_RETRY_BACKOFF)
      (rest.1, backoff :: rest.2.1, rest.2.2 + 1)

/-- Embeds `_call_llm_with_retries`: `attempt = 0`, `backoff = 1.0`, at most
`LLM_RETRY_ATTEMPTS + 1` invocations. -/
def call_llm_with_retries (oracle : ℕ → Except String Policy) :
    Except String Policy × List ℚ × ℕ :=
  call_llm_go oracle 0 (LLM_RETRY_ATTEMPTS + 1) 1

/-- The breach audit message of `src/app/assurance.py` line 87.  The
Python `:.1f` / `:.2f` float formatting is rendered by `fmtFixed`
(round to the given number of decimals and print); the claims under
verification depend only on the message being determined by the measured
values, not on digit-level formatting of binary floats. -/
def padZeros (d : ℕ) (s : String) : String :=
  String.mk (List.replicate (d - s.length) '0') ++ s

/-- Fixed-point decimal rendering of a rational, `d` digits. -/
def fmtFixed (d : ℕ) (q : ℚ) : String :=
  let n : ℤ := round (q * (10 : ℚ) ^ d)
  let sign := if n < 0 then "-" else ""
  let a : ℕ := n.natAbs
  sign ++ toString (a / 10 ^ d) ++ "." ++ padZeros d (toString (a % 10 ^ d))

/-- The f-string of `src/app/assurance.py` line 87. -/
def breachMsg (m : Metrics) : String :=
  "SLA breach: latency=" ++ fmtFixed 1 m.latency ++ "ms avail=" ++
    fmtFixed 2 m.availability ++ "% bw=" ++ fmtFixed 1 m.bandwidth ++ "Mbps"

/-- The environment of one per-intent iteration of `telemetry_loop`: the
random sample drawn by `_simulate_metrics_for_intent`, the outcome of each
translator invocation, whether `attach_policy` raises (`some` exception
text), and the executor outcome (`Except.error` = `apply_policy` raised,
`Except.ok b` = it returned `{"applied": b, ...}`). -/
structure TickEnv where
  metrics : Metrics
  llm : ℕ → Except String Policy
  attachResult : Option String
  execOutcome : Except String Bool

/-- The mutable state `telemetry_loop` touches: the `intents` table and
the process-wide telemetry cache. -/
structure SysState where
  store : Store
  telemetry : Telemetry

/-- Result of one per-intent iteration: the new state, plus observability
of the external calls made (translator invocation count, whether the
executor was invoked, whether telemetry was sampled and cached). -/
structure StepResult where
  state : SysState
  translatorCalls : ℕ
  executorCalled : Bool
  sampled : Bool

/-- The remediation path of `telemetry_loop` (`src/app/assurance.py`
lines 98-125), entered after the breach audit has been appended to
`store`: translate with retries, attach, apply, each `try/except` a case
split, with the exact audit messages of the source. -/
def remediate (env : TickEnv) (store : Store) (id : String) : Store × ℕ × Bool :=
  let llmRes := call_llm_with_retries env.llm
  match llmRes.1 with
  | Except.error e =>
    (append_audit store id ("Remediation failed: LLM unavailable or error: " ++ e),
      llmRes.2.2, false)
  | Except.ok newPolicy =>
    match env.attachResult with
    | some e =>
      (append_audit store id ("Remediation failed: cannot attach policy: " ++ e),
        llmRes.2.2, false)
    | none =>
      let store2 := append_audit (attach_policy store id newPolicy) id
        "LLM produced remediation policy and attached"
      match env.execOutcome with
      | Except.ok true =>
        (append_audit (update_status store2 id "deployed") id
          "Remediation applied successfully", llmRes.2.2, true)
      | Except.ok false =>
        (append_audit store2 id "Remediation application failed", llmRes.2.2, true)
      | Except.error e =>
        (append_audit store2 id ("Remediation application error: " ++ e),
          llmRes.2.2, true)

/-- One per-intent iteration of `telemetry_loop` (`src/app/assurance.py`
lines 68-127) for a listed row `(intent_id, status)`: skip unless the
listed status is `deployed` or `assured`; otherwise sample telemetry into
the cache, fetch the record (skip silently when it has disappeared),
evaluate the SLA, and either remediate or transition to `assured`. -/
def telemetry_loop_step (env : TickEnv) (st : SysState) (intent_id status : String) :
    StepResult :=
  if status = "deployed" ∨ status = "assured" then
    let tel := telemetry_set st.telemetry intent_id env.metrics
    match get_intent st.store intent_id with
    | none => ⟨⟨st.store, tel⟩, 0, false, true⟩
    | some intent =>
      if should_remediate intent.sla env.metrics then
        let res := remediate env
          (append_audit st.store intent_id (breachMsg env.metrics)) intent_id
        ⟨⟨res.1, tel⟩, res.2.1, res.2.2, true⟩
      else
        ⟨⟨update_status st.store intent_id "assured", tel⟩, 0, false, true⟩
  else ⟨st, 0, false, false⟩

/-- The environment of the `POST /intents` pipeline of `src/app/main.py`:
outcome of the single `llm_translate_intent` call, of `attach_policy`,
and of `apply_policy`. -/
structure CreateEnv where
  translate : Except String Policy
  attachResult : Option String
  execOutcome : Except String Bool

/-- The freshly saved row of `create_intent`: `save_intent(intent,
status="submitted")` with `policy = None` and an empty audit list. -/
def newIntentRecord (id name owner : String) (selectors : List (String × String))
    (sla : SLA) (descr : String) : IntentRecord :=
  ⟨id, name, owner, selectors, sla, descr, "submitted", none, []⟩

/-- The `create_intent` pipeline of `src/app/main.py` lines 41-92 acting
on the freshly created record: persist as `submitted`, translate, attach
(moving to `deploying`), apply (moving to `deployed` on success, `error`
on any failure).  Returns the final record together with the list of
successive lifecycle statuses the record held, in order. -/
def create_intent (env : CreateEnv) (id name owner : String)
    (selectors : List (String × String)) (sla : SLA) (descr : String) :
    IntentRecord × List String :=
  let r0 := newIntentRecord id name owner selectors sla descr
  match env.translate with
  | Except.error e =>
    ({ r0 with
        audit_log := r0.audit_log ++ ["Translation failed: " ++ e],
        status := "error" }, ["submitted", "error"])
  | Except.ok policy =>
    match env.attachResult with
    | some e =>
      ({ r0 with
          audit_log := r0.audit_log ++ ["Attach policy failed: " ++ e],
          status := "error" }, ["submitted", "error"])
    | none =>
      let r1 := { r0 with policy := some policy, status := "deploying" }
      match env.execOutcome with
      | Except.ok true =>
        ({ r1 with
            status := "deployed",
            audit_log := r1.audit_log ++ ["Policy applied successfully"] },
          ["submitted", "deploying", "deployed"])
      | Except.ok false =>
        ({ r1 with
            status := "error",
            audit_log := r1.audit_log ++ ["Policy application failed"] },
          ["submitted", "deploying", "error"])
      | Except.error e =>
        ({ r1 with
            status := "error",
            audit_log := r1.audit_log ++ ["Policy application exception: " ++ e] },
          ["submitted", "deploying", "error"])

/-- Row-wise invariant relation: every row of `s1` whose key differs from
`id` is unchanged at its position in `s2` (all loop mutations preserve row
count and order, being SQL `UPDATE`s). -/
def othersUnchanged (s1 s2 : Store) (id : String) : Prop :=
  s1.length = s2.length ∧
    ∀ (i : ℕ) (h1 : i < s1.length) (h2 : i < s2.length),
      s1[i].intent_id ≠ id → s2[i] = s1[i]

/-- Row-wise invariant relation: each audit trail only grows, its old
entries staying in place: the old trail is the initial segment of the new
one. -/
def auditAppendOnly (s1 s2 : Store) : Prop :=
  s1.length ≤ s2.length ∧
    ∀ (i : ℕ) (h1 : i < s1.length) (h2 : i < s2.length),
      s1[i].audit_log.length ≤ s2[i].audit_log.length ∧
      s2[i].audit_log.take s1[i].audit_log.length = s1[i].audit_log

/-- Row-wise invariant relation: each row's status is either unchanged or
one of the two statuses the assurance loop ever writes. -/
def statusRange (s1 s2 : Store) : Prop :=
  s1.length = s2.length ∧
    ∀ (i : ℕ) (h1 : i < s1.length) (h2 : i < s2.length),
      s2[i].status = s1[i].status ∨ s2[i].status = "assured" ∨
        s2[i].status = "deployed"

/-- A concrete policy value, used to instantiate witnesses. -/
def examplePolicy : Policy :=
  ⟨"intent-1", ⟨"gold", 100⟩, ⟨"low-latency", none⟩, []⟩

/-- A concrete record in status `assured`, used in witnesses and in the
refutation of the reachability part of the lifecycle claim. -/
def assuredRecord : IntentRecord :=
  ⟨"intent-1", "n", "owner", [], ⟨some 50, some 99, some 100⟩, "",
    "assured", none, []⟩

/-- A concrete tick environment, used to instantiate witnesses: an
in-range sample, a translator that always fails, attach succeeding, and
an executor that reports non-application. -/
def exampleEnv : TickEnv :=
  ⟨⟨30, 100, 200⟩, fun _ => Except.error "503", none, Except.ok false⟩

/-- A concrete tick environment in which everything succeeds and the
sample breaches `assuredRecord`'s SLA (latency 80 > ceiling 50). -/
def exampleEnvOk : TickEnv :=
  ⟨⟨80, 100, 150⟩, fun _ => Except.ok examplePolicy, none, Except.ok true⟩

/-- A concrete tick environment with a breaching sample and a translator
that fails on every attempt. -/
def exampleEnvFail : TickEnv :=
  ⟨⟨80, 100, 150⟩, fun _ => Except.error "503", none, Except.ok true⟩

/-- A concrete tick environment with a breaching sample, a working
translator, and an executor reporting `applied = false`. -/
def exampleEnvNoApply : TickEnv :=
  ⟨⟨80, 100, 150⟩, fun _ => Except.ok examplePolicy, none, Except.ok false⟩

/-- A concrete system state holding the single record `assuredRecord` and
an empty telemetry cache. -/
def stOne : SysState :=
  ⟨[assuredRecord], fun _ => none⟩

/-- A concrete system state with an empty store and telemetry cache. -/
def stEmpty : SysState :=
  ⟨[], fun _ => none⟩

end IBN

namespace IBN

theorem get_intent_map {g : IntentRecord → IntentRecord}
    (hg : ∀ r, (g r).intent_id = r.intent_id) (l : Store) (id : String) :
    get_intent (l.map g) id = (get_intent l id).map g := by
  have hp : ((fun r => decide (r.intent_id = id)) ∘ g)
      = (fun r : IntentRecord => decide (r.intent_id = id)) := by
    funext r
    simp [Function.comp, hg]
  unfold get_intent
  rw [List.find?_map, hp]

theorem get_intent_id {l : Store} {id : String} {r : IntentRecord}
    (h : get_intent l id = some r) : r.intent_id = id := by
  unfold get_intent at h
  have hp := List.find?_some h
  simpa using hp

theorem get_intent_pointwise (f : IntentRecord → IntentRecord)
    (hf : ∀ x, (f x).intent_id = x.intent_id) {l : Store} {id : String}
    {r : IntentRecord} (h : get_intent l id = some r) :
    get_intent (l.map (fun x => if x.intent_id = id then f x else x)) id
      = some (f r) := by
  have hg : ∀ x : IntentRecord,
      ((if x.intent_id = id then f x else x) : IntentRecord).intent_id
        = x.intent_id := by
    intro x
    split
    · exact hf x
    · rfl
  rw [get_intent_map hg, h]
  simp [if_pos (get_intent_id h)]

theorem get_intent_update_status {l : Store} {id : String} {r : IntentRecord}
    (h : get_intent l id = some r) (s : String) :
    get_intent (update_status l id s) id = some { r with status := s } :=
  get_intent_pointwise (fun x => { x with status := s }) (fun _ => rfl) h

theorem get_intent_attach_policy {l : Store} {id : String} {r : IntentRecord}
    (h : get_intent l id = some r) (p : Policy) :
    get_intent (attach_policy l id p) id = some { r with policy := some p } :=
  get_intent_pointwise (fun x => { x with policy := some p }) (fun _ => rfl) h

theorem get_intent_append_audit {l : Store} {id : String} {r : IntentRecord}
    (h : get_intent l id = some r) (m : String) :
    get_intent (append_audit l id m) id
      = some { r with audit_log := r.audit_log ++ [m] } :=
  get_intent_pointwise (fun x => { x with audit_log := x.audit_log ++ [m] })
    (fun _ => rfl) h

theorem othersUnchanged_refl (l : Store) (id : String) : othersUnchanged l l id :=
  ⟨rfl, fun _ _ _ _ => rfl⟩

theorem othersUnchanged_trans {s1 s2 s3 : Store} {id : String}
    (h12 : othersUnchanged s1 s2 id) (h23 : othersUnchanged s2 s3 id) :
    othersUnchanged s1 s3 id := by
  obtain ⟨hl12, hp12⟩ := h12
  obtain ⟨hl23, hp23⟩ := h23
  refine ⟨hl12.trans hl23, fun i h1 h3 hne => ?_⟩
  have h2 : i < s2.length := hl12 ▸ h1
  have e12 := hp12 i h1 h2 hne
  have hne2 : s2[i].intent_id ≠ id := by
    rw [e12]
    exact hne
  rw [hp23 i h2 h3 hne2, e12]

theorem othersUnchanged_pointwise (f : IntentRecord → IntentRecord)
    (l : Store) (id : String) :
    othersUnchanged l (l.map (fun x => if x.intent_id = id then f x else x)) id := by
  refine ⟨by simp, fun i h1 h2 hne => ?_⟩
  simp only [List.getElem_map]
  rw [if_neg hne]

theorem auditAppendOnly_refl (l : Store) : auditAppendOnly l l :=
  ⟨le_rfl, fun _ _ _ => ⟨le_rfl, List.take_length _⟩⟩

theorem auditAppendOnly_trans {s1 s2 s3 : Store}
    (h12 : auditAppendOnly s1 s2) (h23 : auditAppendOnly s2 s3) :
    auditAppendOnly s1 s3 := by
  obtain ⟨hl12, hp12⟩ := h12
  obtain ⟨hl23, hp23⟩ := h23
  refine ⟨hl12.trans hl23, fun i h1 h3 => ?_⟩
  have h2 : i < s2.length := lt_of_lt_of_le h1 hl12
  obtain ⟨len12, pre12⟩ := hp12 i h1 h2
  obtain ⟨len23, pre23⟩ := hp23 i h2 h3
  refine ⟨len12.trans len23, ?_⟩
  have : s3[i].audit_log.take s1[i].audit_log.length
      = (s3[i].audit_log.take s2[i].audit_log.length).take
          s1[i].audit_log.length := by
    rw [List.take_take, min_eq_left len12]
  rw [this, pre23, pre12]

theorem auditAppendOnly_pointwise (f : IntentRecord → IntentRecord)
    (hf : ∀ x, ∃ t, (f x).audit_log = x.audit_log ++ t) (l : Store) (id : String) :
    auditAppendOnly l (l.map (fun x => if x.intent_id = id then f x else x)) := by
  refine ⟨by simp, fun i h1 h2 => ?_⟩
  simp only [List.getElem_map]
  split
  · obtain ⟨t, ht⟩ := hf l[i]
    rw [ht]
    exact ⟨by simp, List.take_left _ _⟩
  · exact ⟨le_rfl, List.take_length _⟩

theorem auditAppendOnly_save (l : Store) (r : IntentRecord) :
    auditAppendOnly l (save_intent l r) := by
  refine ⟨by simp [save_intent], fun i h1 h2 => ?_⟩
  unfold save_intent
  rw [List.getElem_append_left h1]
  exact ⟨le_rfl, List.take_length _⟩

theorem auditAppendOnly_update_status (l : Store) (id s : String) :
    auditAppendOnly l (update_status l id s) :=
  auditAppendOnly_pointwise (fun x => { x with status := s })
    (fun _ => ⟨[], by simp⟩) l id

theorem auditAppendOnly_attach_policy (l : Store) (id : String) (p : Policy) :
    auditAppendOnly l (attach_policy l id p) :=
  auditAppendOnly_pointwise (fun x => { x with policy := some p })
    (fun _ => ⟨[], by simp⟩) l id

theorem auditAppendOnly_append_audit (l : Store) (id m : String) :
    auditAppendOnly l (append_audit l id m) :=
  auditAppendOnly_pointwise (fun x => { x with audit_log := x.audit_log ++ [m] })
    (fun _ => ⟨[m], rfl⟩) l id

theorem statusRange_refl (l : Store) : statusRange l l :=
  ⟨rfl, fun _ _ _ => Or.inl rfl⟩

theorem statusRange_trans {s1 s2 s3 : Store}
    (h12 : statusRange s1 s2) (h23 : statusRange s2 s3) : statusRange s1 s3 := by
  obtain ⟨hl12, hp12⟩ := h12
  obtain ⟨hl23, hp23⟩ := h23
  refine ⟨hl12.trans hl23, fun i h1 h3 => ?_⟩
  have h2 : i < s2.length := hl12 ▸ h1
  rcases hp23 i h2 h3 with h | h | h
  · rw [h]
    exact hp12 i h1 h2
  · exact Or.inr (Or.inl h)
  · exact Or.inr (Or.inr h)

theorem statusRange_pointwise (f : IntentRecord → IntentRecord)
    (hf : ∀ x, (f x).status = x.status ∨ (f x).status = "assured" ∨
      (f x).status = "deployed") (l : Store) (id : String) :
    statusRange l (l.map (fun x => if x.intent_id = id then f x else x)) := by
  refine ⟨by simp, fun i h1 h2 => ?_⟩
  simp only [List.getElem_map]
  split
  · exact hf l[i]
  · exact Or.inl rfl

theorem statusRange_update_status (l : Store) (id : String) (s : String)
    (hs : s = "assured" ∨ s = "deployed") :
    statusRange l (update_status l id s) :=
  statusRange_pointwise (fun x => { x with status := s })
    (fun _ => Or.inr hs) l id

theorem statusRange_attach_policy (l : Store) (id : String) (p : Policy) :
    statusRange l (attach_policy l id p) :=
  statusRange_pointwise (fun x => { x with policy := some p })
    (fun _ => Or.inl rfl) l id

theorem statusRange_append_audit (l : Store) (id m : String) :
    statusRange l (append_audit l id m) :=
  statusRange_pointwise (fun x => { x with audit_log := x.audit_log ++ [m] })
    (fun _ => Or.inl rfl) l id

theorem remediate_llm_fail (env : TickEnv) (store : Store) (id : String)
    (e : String) (hllm : (call_llm_with_retries env.llm).1 = Except.error e) :
    remediate env store id =
      (append_audit store id ("Remediation failed: LLM unavailable or error: " ++ e),
        (call_llm_with_retries env.llm).2.2, false) := by
  unfold remediate
  dsimp only
  rw [hllm]

theorem remediate_attach_fail (env : TickEnv) (store : Store) (id : String)
    (p : Policy) (e : String)
    (hllm : (call_llm_with_retries env.llm).1 = Except.ok p)
    (hattach : env.attachResult = some e) :
    remediate env store id =
      (append_audit store id ("Remediation failed: cannot attach policy: " ++ e),
        (call_llm_with_retries env.llm).2.2, false) := by
  unfold remediate
  dsimp only
  rw [hllm, hattach]

theorem remediate_success (env : TickEnv) (store : Store) (id : String)
    (p : Policy) (hllm : (call_llm_with_retries env.llm).1 = Except.ok p)
    (hattach : env.attachResult = none)
    (hexec : env.execOutcome = Except.ok true) :
    remediate env store id =
      (append_audit (update_status (append_audit (attach_policy store id p) id
          "LLM produced remediation policy and attached") id "deployed") id
          "Remediation applied successfully",
        (call_llm_with_retries env.llm).2.2, true) := by
  unfold remediate
  dsimp only
  rw [hllm, hattach, hexec]

theorem remediate_apply_false (env : TickEnv) (store : Store) (id : String)
    (p : Policy) (hllm : (call_llm_with_retries env.llm).1 = Except.ok p)
    (hattach : env.attachResult = none)
    (hexec : env.execOutcome = Except.ok false) :
    remediate env store id =
      (append_audit (append_audit (attach_policy store id p) id
          "LLM produced remediation policy and attached") id
          "Remediation application failed",
        (call_llm_with_retries env.llm).2.2, true) := by
  unfold remediate
  dsimp only
  rw [hllm, hattach, hexec]

theorem remediate_apply_raise (env : TickEnv) (store : Store) (id : String)
    (p : Policy) (e : String)
    (hllm : (call_llm_with_retries env.llm).1 = Except.ok p)
    (hattach : env.attachResult = none)
    (hexec : env.execOutcome = Except.error e) :
    remediate env store id =
      (append_audit (append_audit (attach_policy store id p) id
          "LLM produced remediation policy and attached") id
          ("Remediation application error: " ++ e),
        (call_llm_with_retries env.llm).2.2, true) := by
  unfold remediate
  dsimp only
  rw [hllm, hattach, hexec]

theorem step_skip (env : TickEnv) (st : SysState) (id status : String)
    (hs : ¬(status = "deployed" ∨ status = "assured")) :
    telemetry_loop_step env st id status = ⟨st, 0, false, false⟩ := by
  rw [telemetry_loop_step.eq_def, if_neg hs]

theorem step_missing (env : TickEnv) (st : SysState) (id status : String)
    (hs : status = "deployed" ∨ status = "assured")
    (hr : get_intent st.store id = none) :
    telemetry_loop_step env st id status =
      ⟨⟨st.store, telemetry_set st.telemetry id env.metrics⟩, 0, false, true⟩ := by
  rw [telemetry_loop_step.eq_def, if_pos hs]
  dsimp only
  split
  · rfl
  · simp_all

theorem step_no_breach (env : TickEnv) (st : SysState) (id status : String)
    (r : IntentRecord) (hs : status = "deployed" ∨ status = "assured")
    (hr : get_intent st.store id = some r)
    (hb : should_remediate r.sla env.metrics = false) :
    telemetry_loop_step env st id status =
      ⟨⟨update_status st.store id "assured",
        telemetry_set st.telemetry id env.metrics⟩, 0, false, true⟩ := by
  rw [telemetry_loop_step.eq_def, if_pos hs]
  dsimp only
  split
  · simp_all
  · rename_i r2 hr2
    rw [hr] at hr2
    cases hr2
    rw [if_neg (by simp [hb])]

theorem step_breach (env : TickEnv) (st : SysState) (id status : String)
    (r : IntentRecord) (hs : status = "deployed" ∨ status = "assured")
    (hr : get_intent st.store id = some r)
    (hb : should_remediate r.sla env.metrics = true) :
    telemetry_loop_step env st id status =
      ⟨⟨(remediate env (append_audit st.store id (breachMsg env.metrics)) id).1,
        telemetry_set st.telemetry id env.metrics⟩,
        (remediate env (append_audit st.store id (breachMsg env.metrics)) id).2.1,
        (remediate env (append_audit st.store id (breachMsg env.metrics)) id).2.2,
        true⟩ := by
  rw [telemetry_loop_step.eq_def, if_pos hs]
  dsimp only
  split
  · simp_all
  · rename_i r2 hr2
    rw [hr] at hr2
    cases hr2
    rw [if_pos hb]

theorem auditAppendOnly_remediate (env : TickEnv) (store : Store) (id : String) :
    auditAppendOnly store (remediate env store id).1 := by
  rcases hllm : (call_llm_with_retries env.llm).1 with e | p
  · rw [remediate_llm_fail env store id e hllm]
    exact auditAppendOnly_append_audit _ _ _
  · rcases hattach : env.attachResult with _ | e
    · rcases hexec : env.execOutcome with e | b
      · rw [remediate_apply_raise env store id p e hllm hattach hexec]
        exact auditAppendOnly_trans (auditAppendOnly_trans
          (auditAppendOnly_attach_policy _ _ _) (auditAppendOnly_append_audit _ _ _))
          (auditAppendOnly_append_audit _ _ _)
      · cases b
        · rw [remediate_apply_false env store id p hllm hattach hexec]
          exact auditAppendOnly_trans (auditAppendOnly_trans
            (auditAppendOnly_attach_policy _ _ _) (auditAppendOnly_append_audit _ _ _))
            (auditAppendOnly_append_audit _ _ _)
        · rw [remediate_success env store id p hllm hattach hexec]
          exact auditAppendOnly_trans (auditAppendOnly_trans (auditAppendOnly_trans
            (auditAppendOnly_attach_policy _ _ _) (auditAppendOnly_append_audit _ _ _))
            (auditAppendOnly_update_status _ _ _)) (auditAppendOnly_append_audit _ _ _)
    · rw [remediate_attach_fail env store id p e hllm hattach]
      exact auditAppendOnly_append_audit _ _ _

theorem othersUnchanged_remediate (env : TickEnv) (store : Store) (id : String) :
    othersUnchanged store (remediate env store id).1 id := by
  rcases hllm : (call_llm_with_retries env.llm).1 with e | p
  · rw [remediate_llm_fail env store id e hllm]
    exact othersUnchanged_pointwise _ _ _
  · rcases hattach : env.attachResult with _ | e
    · rcases hexec : env.execOutcome with e | b
      · rw [remediate_apply_raise env store id p e hllm hattach hexec]
        exact othersUnchanged_trans (othersUnchanged_trans
          (othersUnchanged_pointwise _ _ _) (othersUnchanged_pointwise _ _ _))
          (othersUnchanged_pointwise _ _ _)
      · cases b
        · rw [remediate_apply_false env store id p hllm hattach hexec]
          exact othersUnchanged_trans (othersUnchanged_trans
            (othersUnchanged_pointwise _ _ _) (othersUnchanged_pointwise _ _ _))
            (othersUnchanged_pointwise _ _ _)
        · rw [remediate_success env store id p hllm hattach hexec]
          exact othersUnchanged_trans (othersUnchanged_trans (othersUnchanged_trans
            (othersUnchanged_pointwise _ _ _) (othersUnchanged_pointwise _ _ _))
            (othersUnchanged_pointwise _ _ _)) (othersUnchanged_pointwise _ _ _)
    · rw [remediate_attach_fail env store id p e hllm hattach]
      exact othersUnchanged_pointwise _ _ _

theorem statusRange_remediate (env : TickEnv) (store : Store) (id : String) :
    statusRange store (remediate env store id).1 := by
  rcases hllm : (call_llm_with_retries env.llm).1 with e | p
  · rw [remediate_llm_fail env store id e hllm]
    exact statusRange_append_audit _ _ _
  · rcases hattach : env.attachResult with _ | e
    · rcases hexec : env.execOutcome with e | b
      · rw [remediate_apply_raise env store id p e hllm hattach hexec]
        exact statusRange_trans (statusRange_trans
          (statusRange_attach_policy _ _ _) (statusRange_append_audit _ _ _))
          (statusRange_append_audit _ _ _)
      · cases b
        · rw [remediate_apply_false env store id p hllm hattach hexec]
          exact statusRange_trans (statusRange_trans
            (statusRange_attach_policy _ _ _) (statusRange_append_audit _ _ _))
            (statusRange_append_audit _ _ _)
        · rw [remediate_success env store id p hllm hattach hexec]
          exact statusRange_trans (statusRange_trans (statusRange_trans
            (statusRange_attach_policy _ _ _) (statusRange_append_audit _ _ _))
            (statusRange_update_status _ _ _ (Or.inr rfl)))
            (statusRange_append_audit _ _ _)
    · rw [remediate_attach_fail env store id p e hllm hattach]
      exact statusRange_append_audit _ _ _

theorem auditAppendOnly_step (env : TickEnv) (st : SysState) (id status : String) :
    auditAppendOnly st.store (telemetry_loop_step env st id status).state.store := by
  by_cases hs : status = "deployed" ∨ status = "assured"
  · rcases hr : get_intent st.store id with _ | r
    · rw [step_missing env st id status hs hr]
      exact auditAppendOnly_refl _
    · by_cases hb : should_remediate r.sla env.metrics = true
      · rw [step_breach env st id status r hs hr hb]
        exact auditAppendOnly_trans (auditAppendOnly_append_audit _ _ _)
          (auditAppendOnly_remediate _ _ _)
      · rw [step_no_breach env st id status r hs hr (by simpa using hb)]
        exact auditAppendOnly_update_status _ _ _
  · rw [step_skip env st id status hs]
    exact auditAppendOnly_refl _

theorem othersUnchanged_step (env : TickEnv) (st : SysState) (id status : String) :
    othersUnchanged st.store (telemetry_loop_step env st id status).state.store id := by
  by_cases hs : status = "deployed" ∨ status = "assured"
  · rcases hr : get_intent st.store id with _ | r
    · rw [step_missing env st id status hs hr]
      exact othersUnchanged_refl _ _
    · by_cases hb : should_remediate r.sla env.metrics = true
      · rw [step_breach env st id status r hs hr hb]
        exact othersUnchanged_trans (othersUnchanged_pointwise _ _ _)
          (othersUnchanged_remediate _ _ _)
      · rw [step_no_breach env st id status r hs hr (by simpa using hb)]
        exact othersUnchanged_pointwise _ _ _
  · rw [step_skip env st id status hs]
    exact othersUnchanged_refl _ _

theorem statusRange_step (env : TickEnv) (st : SysState) (id status : String) :
    statusRange st.store (telemetry_loop_step env st id status).state.store := by
  by_cases hs : status = "deployed" ∨ status = "assured"
  · rcases hr : get_intent st.store id with _ | r
    · rw [step_missing env st id status hs hr]
      exact statusRange_refl _
    · by_cases hb : should_remediate r.sla env.metrics = true
      · rw [step_breach env st id status r hs hr hb]
        exact statusRange_trans (statusRange_append_audit _ _ _)
          (statusRange_remediate _ _ _)
      · rw [step_no_breach env st id status r hs hr (by simpa using hb)]
        exact statusRange_update_status _ _ _ (Or.inl rfl)
  · rw [step_skip env st id status hs]
    exact statusRange_refl _

theorem call_llm_all_fail (o : ℕ → Except String Policy) (e0 e1 e2 : String)
    (h0 : o 0 = Except.error e0) (h1 : o 1 = Except.error e1)
    (h2 : o 2 = Except.error e2) :
    call_llm_with_retries o = (Except.error e2, [1, LLM_RETRY_BACKOFF], 3) := by
  simp [call_llm_with_retries, LLM_RETRY_ATTEMPTS, call_llm_go, h0, h1, h2]

end IBN

namespace IBN

/-- C1: the SLA evaluator returns breach exactly on a threshold violation,
with permissive defaults for missing SLA fields: an absent latency ceiling
is infinite (never exceeded), absent floors are zero; hence a sample with
nonnegative availability and bandwidth never breaches an empty SLA. -/
theorem c1_sla_evaluator (sla : SLA) (m : Metrics) :
    (should_remediate sla m = true ↔
      ((∃ c, sla.latency_ms = some c ∧ c < m.latency) ∨
        m.availability < sla.availability_pct.getD 0 ∨
        m.bandwidth < sla.min_bandwidth_mbps.getD 0)) ∧
    (sla.latency_ms = none → sla.availability_pct = none →
      sla.min_bandwidth_mbps = none → 0 ≤ m.availability → 0 ≤ m.bandwidth →
      should_remediate sla m = false) := by
  constructor
  · unfold should_remediate
    cases h : sla.latency_ms with
    | none =>
      simp [h]
    | some c =>
      simp [h, or_assoc]
  · intro h1 h2 h3 hav hbw
    unfold should_remediate
    simp [h1, h2, h3, not_lt.mpr hav, not_lt.mpr hbw]

/-- Witness for C1, exercising both conjuncts: the spec's example SLA
`{latency_ms: 50, availability_pct: 99.9, min_bandwidth_mbps: 100}` with
sample `(80, 99.95, 150)` breaches (latency violation), and the empty SLA
with the same sample does not. -/
theorem c1_sla_evaluator_witness :
    should_remediate ⟨some 50, some (999/10), some 100⟩ ⟨80, 999/10 + 1/20, 150⟩ = true ∧
    should_remediate ⟨none, none, none⟩ ⟨80, 999/10 + 1/20, 150⟩ = false := by
  constructor
  · exact (c1_sla_evaluator _ _).1.mpr (Or.inl ⟨50, rfl, by norm_num⟩)
  · exact (c1_sla_evaluator _ _).2 rfl rfl rfl (by norm_num) (by norm_num)

end IBN

namespace IBN

/-- C2: for an intent listed as `deployed` or `assured` whose tick
breaches, when the translator succeeds within the retry budget, the attach
succeeds, and the executor reports `applied = true`, at the end of the
intent's processing its record has status `deployed`, the new policy
attached, and exactly the three audit entries (breach notice with the
measured values, attachment-success notice, application-success notice)
appended in that order; every other row of the store is untouched. -/
theorem c2_breach_remediation_success (env : TickEnv) (st : SysState)
    (id status : String) (r : IntentRecord) (p : Policy)
    (hs : status = "deployed" ∨ status = "assured")
    (hr : get_intent st.store id = some r)
    (hb : should_remediate r.sla env.metrics = true)
    (hllm : (call_llm_with_retries env.llm).1 = Except.ok p)
    (hattach : env.attachResult = none)
    (hexec : env.execOutcome = Except.ok true) :
    get_intent (telemetry_loop_step env st id status).state.store id =
      some { r with
        status := "deployed"
        policy := some p
        audit_log := r.audit_log ++ [breachMsg env.metrics,
          "LLM produced remediation policy and attached",
          "Remediation applied successfully"] } ∧
    othersUnchanged st.store (telemetry_loop_step env st id status).state.store id := by
  refine ⟨?_, othersUnchanged_step env st id status⟩
  rw [step_breach env st id status r hs hr hb]
  dsimp only
  rw [remediate_success env _ id p hllm hattach hexec]
  dsimp only
  have g1 := get_intent_append_audit hr (breachMsg env.metrics)
  have g2 := get_intent_attach_policy g1 p
  have g3 := get_intent_append_audit g2 "LLM produced remediation policy and attached"
  have g4 := get_intent_update_status g3 "deployed"
  have g5 := get_intent_append_audit g4 "Remediation applied successfully"
  rw [g5]
  simp

/-- Witness for C2 at a concrete breaching state: the final status is
`deployed`. -/
theorem c2_breach_remediation_success_witness :
    (get_intent (telemetry_loop_step exampleEnvOk stOne "intent-1" "assured").state.store
      "intent-1").map IntentRecord.status = some "deployed" := by
  have h := c2_breach_remediation_success exampleEnvOk stOne "intent-1" "assured"
    assuredRecord examplePolicy (Or.inr rfl) rfl (by decide) rfl rfl rfl
  rw [h.1]
  rfl

/-- C3: for an intent listed as `deployed` or `assured` whose tick
breaches, if the translator fails on all 3 attempts, the record keeps its
previous status and gains exactly the two audit entries (breach notice,
remediation-failed notice carrying the last exception); other rows are
untouched, and the step returns normally (it is a total function), so the
loop proceeds to the next intent without raising. -/
theorem c3_breach_translate_exhausted (env : TickEnv) (st : SysState)
    (id status : String) (r : IntentRecord) (e0 e1 e2 : String)
    (hs : status = "deployed" ∨ status = "assured")
    (hr : get_intent st.store id = some r)
    (hb : should_remediate r.sla env.metrics = true)
    (h0 : env.llm 0 = Except.error e0) (h1 : env.llm 1 = Except.error e1)
    (h2 : env.llm 2 = Except.error e2) :
    get_intent (telemetry_loop_step env st id status).state.store id =
      some { r with
        audit_log := r.audit_log ++ [breachMsg env.metrics,
          "Remediation failed: LLM unavailable or error: " ++ e2] } ∧
    (telemetry_loop_step env st id status).translatorCalls = 3 ∧
    (telemetry_loop_step env st id status).executorCalled = false ∧
    othersUnchanged st.store (telemetry_loop_step env st id status).state.store id := by
  have hcall := call_llm_all_fail env.llm e0 e1 e2 h0 h1 h2
  have hllm : (call_llm_with_retries env.llm).1 = Except.error e2 := by rw [hcall]
  refine ⟨?_, ?_, ?_, othersUnchanged_step env st id status⟩
  · rw [step_breach env st id status r hs hr hb]
    dsimp only
    rw [remediate_llm_fail env _ id e2 hllm]
    dsimp only
    have g1 := get_intent_append_audit hr (breachMsg env.metrics)
    have g2 := get_intent_append_audit g1
      ("Remediation failed: LLM unavailable or error: " ++ e2)
    rw [g2]
    simp
  · rw [step_breach env st id status r hs hr hb]
    dsimp only
    rw [remediate_llm_fail env _ id e2 hllm]
    dsimp only
    rw [hcall]
  · rw [step_breach env st id status r hs hr hb]
    dsimp only
    rw [remediate_llm_fail env _ id e2 hllm]

/-- Witness for C3 at a concrete breaching state with an always-failing
translator: the status is unchanged (`assured`). -/
theorem c3_breach_translate_exhausted_witness :
    (get_intent (telemetry_loop_step exampleEnvFail stOne "intent-1" "assured").state.store
      "intent-1").map IntentRecord.status = some "assured" := by
  have h := c3_breach_translate_exhausted exampleEnvFail stOne "intent-1" "assured"
    assuredRecord "503" "503" "503" (Or.inr rfl) rfl (by decide) rfl rfl rfl
  rw [h.1]
  rfl

/-- C5: an intent listed with status `submitted`, `deploying`, or `error`
is skipped before anything happens: the state (store and telemetry cache)
is unchanged, no telemetry is sampled, and neither the translator nor the
executor is invoked. -/
theorem c5_ineligible_skipped (env : TickEnv) (st : SysState) (id status : String)
    (h : status = "submitted" ∨ status = "deploying" ∨ status = "error") :
    telemetry_loop_step env st id status = ⟨st, 0, false, false⟩ := by
  apply step_skip
  rcases h with h | h | h <;> subst h <;> decide

/-- Witness for C5: a `submitted` intent is untouched. -/
theorem c5_ineligible_skipped_witness :
    telemetry_loop_step exampleEnv stOne "intent-1" "submitted" =
      ⟨stOne, 0, false, false⟩ :=
  c5_ineligible_skipped exampleEnv stOne "intent-1" "submitted" (Or.inl rfl)

/-- C6: for an intent listed as `deployed` or `assured` whose tick finds
no breach, the record's status after the tick is `assured` (and nothing
else of the record changes). -/
theorem c6_no_breach_assured (env : TickEnv) (st : SysState)
    (id status : String) (r : IntentRecord)
    (hs : status = "deployed" ∨ status = "assured")
    (hr : get_intent st.store id = some r)
    (hb : should_remediate r.sla env.metrics = false) :
    get_intent (telemetry_loop_step env st id status).state.store id =
      some { r with status := "assured" } := by
  rw [step_no_breach env st id status r hs hr hb]
  dsimp only
  exact get_intent_update_status hr "assured"

/-- Witness for C6 at a concrete in-range state. -/
theorem c6_no_breach_assured_witness :
    get_intent (telemetry_loop_step exampleEnv stOne "intent-1" "assured").state.store
      "intent-1" = some { assuredRecord with status := "assured" } :=
  c6_no_breach_assured exampleEnv stOne "intent-1" "assured" assuredRecord
    (Or.inr rfl) rfl (by decide)

/-- C7: during remediation, after a successful attach: executor reporting
`applied = true` moves the record to `deployed` with a success audit
entry; `applied = false` appends a failure entry and leaves the status
unchanged; an executor exception appends an entry carrying the exception
and leaves the status unchanged.  In all three cases the step returns
normally (total function): the failure is not propagated. -/
theorem c7_executor_outcomes (env : TickEnv) (st : SysState)
    (id status : String) (r : IntentRecord) (p : Policy)
    (hs : status = "deployed" ∨ status = "assured")
    (hr : get_intent st.store id = some r)
    (hb : should_remediate r.sla env.metrics = true)
    (hllm : (call_llm_with_retries env.llm).1 = Except.ok p)
    (hattach : env.attachResult = none) :
    (env.execOutcome = Except.ok true →
      get_intent (telemetry_loop_step env st id status).state.store id =
        some { r with
          status := "deployed"
          policy := some p
          audit_log := r.audit_log ++ [breachMsg env.metrics,
            "LLM produced remediation policy and attached",
            "Remediation applied successfully"] }) ∧
    (env.execOutcome = Except.ok false →
      get_intent (telemetry_loop_step env st id status).state.store id =
        some { r with
          policy := some p
          audit_log := r.audit_log ++ [breachMsg env.metrics,
            "LLM produced remediation policy and attached",
            "Remediation application failed"] }) ∧
    (∀ e : String, env.execOutcome = Except.error e →
      get_intent (telemetry_loop_step env st id status).state.store id =
        some { r with
          policy := some p
          audit_log := r.audit_log ++ [breachMsg env.metrics,
            "LLM produced remediation policy and attached",
            "Remediation application error: " ++ e] }) := by
  refine ⟨fun hexec => ?_, fun hexec => ?_, fun e hexec => ?_⟩
  · exact (c2_breach_remediation_success env st id status r p hs hr hb hllm
      hattach hexec).1
  · rw [step_breach env st id status r hs hr hb]
    dsimp only
    rw [remediate_apply_false env _ id p hllm hattach hexec]
    dsimp only
    have g1 := get_intent_append_audit hr (breachMsg env.metrics)
    have g2 := get_intent_attach_policy g1 p
    have g3 := get_intent_append_audit g2 "LLM produced remediation policy and attached"
    have g4 := get_intent_append_audit g3 "Remediation application failed"
    rw [g4]
    simp
  · rw [step_breach env st id status r hs hr hb]
    dsimp only
    rw [remediate_apply_raise env _ id p e hllm hattach hexec]
    dsimp only
    have g1 := get_intent_append_audit hr (breachMsg env.metrics)
    have g2 := get_intent_attach_policy g1 p
    have g3 := get_intent_append_audit g2 "LLM produced remediation policy and attached"
    have g4 := get_intent_append_audit g3 ("Remediation application error: " ++ e)
    rw [g4]
    simp

/-- Witness for C7 (the `applied = false` case): the status stays
`assured`. -/
theorem c7_executor_outcomes_witness :
    (get_intent (telemetry_loop_step exampleEnvNoApply stOne "intent-1" "assured").state.store
      "intent-1").map IntentRecord.status = some "assured" := by
  have h := (c7_executor_outcomes exampleEnvNoApply stOne "intent-1" "assured"
    assuredRecord examplePolicy (Or.inr rfl) rfl (by decide) rfl rfl).2.1 rfl
  rw [h]
  rfl

end IBN

namespace IBN

/-- C4: the retry helper invokes the translator at most 3 times; when the
first `k` attempts fail (`k < 3`) and attempt `k` succeeds, the sleeps
performed are exactly the length-`k` initial segment of `[1.0, 1.5]`; when
all 3 attempts fail, the last exception is re-raised (after both sleeps). -/
theorem c4_retry_budget (o : ℕ → Except String Policy) :
    (call_llm_with_retries o).2.2 ≤ 3 ∧
    (∀ (k : ℕ) (p : Policy), k < 3 →
      (∀ i, i < k → ∃ e, o i = Except.error e) → o k = Except.ok p →
      call_llm_with_retries o =
        (Except.ok p, List.take k [1, LLM_RETRY_BACKOFF], k + 1)) ∧
    (∀ e0 e1 e2 : String, o 0 = Except.error e0 → o 1 = Except.error e1 →
      o 2 = Except.error e2 →
      call_llm_with_retries o = (Except.error e2, [1, LLM_RETRY_BACKOFF], 3)) := by
  refine ⟨?_, ?_, ?_⟩
  · rcases h0 : o 0 with e0 | p0
    · rcases h1 : o 1 with e1 | p1
      · rcases h2 : o 2 with e2 | p2 <;>
          simp [call_llm_with_retries, LLM_RETRY_ATTEMPTS, call_llm_go, h0, h1, h2]
      · simp [call_llm_with_retries, LLM_RETRY_ATTEMPTS, call_llm_go, h0, h1]
    · simp [call_llm_with_retries, LLM_RETRY_ATTEMPTS, call_llm_go, h0]
  · intro k p hk hfail hok
    interval_cases k
    · simp [call_llm_with_retries, LLM_RETRY_ATTEMPTS, call_llm_go, hok]
    · obtain ⟨e0, h0⟩ := hfail 0 (by norm_num)
      simp [call_llm_with_retries, LLM_RETRY_ATTEMPTS, call_llm_go, h0, hok]
    · obtain ⟨e0, h0⟩ := hfail 0 (by norm_num)
      obtain ⟨e1, h1⟩ := hfail 1 (by norm_num)
      simp [call_llm_with_retries, LLM_RETRY_ATTEMPTS, call_llm_go, h0, h1, hok]
  · exact fun e0 e1 e2 h0 h1 h2 => call_llm_all_fail o e0 e1 e2 h0 h1 h2

/-- Witness for C4: one failure then success makes 2 invocations and the
single sleep `[1.0]`. -/
theorem c4_retry_budget_witness :
    call_llm_with_retries
        (fun i => if i = 0 then Except.error "503" else Except.ok examplePolicy) =
      (Except.ok examplePolicy, [1], 2) := by
  have h := (c4_retry_budget
      (fun i => if i = 0 then Except.error "503" else Except.ok examplePolicy)).2.1 1
      examplePolicy (by norm_num) (fun i hi => ⟨"503", by interval_cases i; rfl⟩) rfl
  simpa using h

/-- C8: every store operation (`save_intent`, `update_status`,
`attach_policy`, `append_audit`) and every per-intent assurance-tick step
is append-only on each intent's audit trail: trails never shrink and the
old trail is the unchanged initial segment of the new one. -/
theorem c8_audit_append_only :
    (∀ (l : Store) (r : IntentRecord), auditAppendOnly l (save_intent l r)) ∧
    (∀ (l : Store) (id s : String), auditAppendOnly l (update_status l id s)) ∧
    (∀ (l : Store) (id : String) (p : Policy),
      auditAppendOnly l (attach_policy l id p)) ∧
    (∀ (l : Store) (id m : String), auditAppendOnly l (append_audit l id m)) ∧
    (∀ (env : TickEnv) (st : SysState) (id status : String),
      auditAppendOnly st.store (telemetry_loop_step env st id status).state.store) :=
  ⟨auditAppendOnly_save, auditAppendOnly_update_status, auditAppendOnly_attach_policy,
    auditAppendOnly_append_audit, auditAppendOnly_step⟩

/-- Witness for C8: a concrete audit append grows the single record's
trail. -/
theorem c8_audit_append_only_witness :
    auditAppendOnly [assuredRecord] (append_audit [assuredRecord] "intent-1" "x") :=
  c8_audit_append_only.2.2.2.1 [assuredRecord] "intent-1" "x"

/-- C10: for an eligible listed intent whose record has disappeared
between listing and detail lookup, the step leaves the store untouched and
makes no translator or executor call, but the telemetry cache has already
been updated with the fresh sample, readable through the telemetry query
surface. -/
theorem c10_telemetry_written_before_lookup (env : TickEnv) (st : SysState)
    (id status : String) (hs : status = "deployed" ∨ status = "assured")
    (habs : get_intent st.store id = none) :
    (telemetry_loop_step env st id status).state.store = st.store ∧
    get_telemetry (telemetry_loop_step env st id status).state.telemetry id =
      some env.metrics ∧
    (telemetry_loop_step env st id status).translatorCalls = 0 ∧
    (telemetry_loop_step env st id status).executorCalled = false ∧
    (telemetry_loop_step env st id status).sampled = true := by
  rw [step_missing env st id status hs habs]
  refine ⟨rfl, ?_, rfl, rfl, rfl⟩
  unfold get_telemetry telemetry_set
  simp

/-- Witness for C10: on an empty store the cache still receives the
sample. -/
theorem c10_telemetry_written_before_lookup_witness :
    get_telemetry (telemetry_loop_step exampleEnv stEmpty "ghost" "deployed").state.telemetry
      "ghost" = some exampleEnv.metrics :=
  (c10_telemetry_written_before_lookup exampleEnv stEmpty "ghost" "deployed"
    (Or.inl rfl) rfl).2.1

end IBN

namespace IBN

/-- C9 (amended): the `error` status is terminal — the assurance loop
never touches an intent listed as `error`, never writes `error` itself
(every row's status after a step is its old status, `assured`, or
`deployed`), and in the creation pipeline `error` is only ever the final
status — and `error` is reachable from `submitted` (translation failure)
and from `deploying` (application failure).  It is not reachable from
`deployed` or `assured`: remediation failures leave the status unchanged
(see the refutation of the original claim). -/
theorem c9_error_terminal :
    (∀ (env : TickEnv) (st : SysState) (id : String),
      telemetry_loop_step env st id "error" = ⟨st, 0, false, false⟩) ∧
    (∀ (env : TickEnv) (st : SysState) (id status : String),
      statusRange st.store (telemetry_loop_step env st id status).state.store) ∧
    (∀ (env : CreateEnv) (id name owner : String)
        (sel : List (String × String)) (sla : SLA) (d : String),
      "error" ∉ (create_intent env id name owner sel sla d).2.dropLast) ∧
    (∃ env : CreateEnv,
      (create_intent env "i" "n" "o" [] ⟨none, none, none⟩ "").2 =
        ["submitted", "error"]) ∧
    (∃ env : CreateEnv,
      (create_intent env "i" "n" "o" [] ⟨none, none, none⟩ "").2 =
        ["submitted", "deploying", "error"]) := by
  refine ⟨?_, ?_, ?_, ?_, ?_⟩
  · intro env st id
    apply step_skip
    decide
  · exact fun env st id status => statusRange_step env st id status
  · intro env id name owner sel sla d
    rcases htr : env.translate with e | p
    · simp [create_intent, htr]
    · rcases hat : env.attachResult with _ | e
      · rcases hex : env.execOutcome with e | b
        · simp [create_intent, htr, hat, hex]
        · cases b <;> simp [create_intent, htr, hat, hex]
      · simp [create_intent, htr, hat]
  · exact ⟨⟨Except.error "boom", none, Except.ok true⟩, rfl⟩
  · exact ⟨⟨Except.ok examplePolicy, none, Except.ok false⟩, rfl⟩

/-- Witness for C9 (amended): the loop leaves a concrete `error`-listed
intent untouched. -/
theorem c9_error_terminal_witness :
    telemetry_loop_step exampleEnv stOne "intent-1" "error" =
      ⟨stOne, 0, false, false⟩ :=
  c9_error_terminal.1 exampleEnv stOne "intent-1"

/-- C9 counterexample: the original claim says `error` is reachable from
every non-error state, in particular from `assured`; but no assurance-tick
execution (any translator / attach / executor failure combination) moves a
concrete `assured` intent to `error`, and the creation pipeline only acts
on a freshly created identifier. -/
theorem c9_counterexample :
    ¬ ∃ (env : TickEnv) (r : IntentRecord),
      get_intent (telemetry_loop_step env stOne "intent-1" "assured").state.store
          "intent-1" = some r ∧
      r.status = "error" := by
  rintro ⟨env, r, hget, hstat⟩
  obtain ⟨hlen, hrange⟩ := statusRange_step env stOne "intent-1" "assured"
  unfold get_intent at hget
  have hmem := List.mem_of_find?_eq_some hget
  obtain ⟨i, hi, hieq⟩ := List.mem_iff_getElem.mp hmem
  have hi1 : i < stOne.store.length := by
    rw [hlen]
    exact hi
  have hr := hrange i hi1 hi
  simp only [hieq] at hr
  have hi0 : i = 0 := by
    have hone : stOne.store.length = 1 := rfl
    omega
  subst hi0
  have hs0 : stOne.store[0].status = "assured" := rfl
  rw [hs0, hstat] at hr
  rcases hr with h | h | h <;> exact absurd h (by decide)

end IBN
